import Mathlib

/-!
Verification of the FCFF valuation core of the Financial-Visualization-Dashboard
repository (files `FCFF.py` and `MC.py`).

Numeric model: the Python code computes with numpy/pandas float64 values in
which `np.nan` marks absent cells and division by zero produces signed
infinities or NaN.  We embed these values as the type `EF`: an exact rational
(`EF.fin q`) or one of the three IEEE special values `pinf`, `ninf`, `nan`.
Arithmetic on `EF` mirrors IEEE-754 special-value propagation exactly
(`inf - inf = nan`, `inf * 0 = nan`, `x / 0 = ±inf` for `x ≠ 0`, `0/0 = nan`,
NaN absorbs), while finite arithmetic is exact rational arithmetic (rounding
is not modelled; every spec claim is an exact-arithmetic statement).
-/

inductive EF where
  | fin (q : ℚ)
  | pinf
  | ninf
  | nan
deriving DecidableEq

namespace EF

def neg : EF → EF
  | fin q => fin (-q)
  | pinf => ninf
  | ninf => pinf
  | nan => nan

def add : EF → EF → EF
  | nan, _ => nan
  | _, nan => nan
  | fin a, fin b => fin (a + b)
  | fin _, pinf => pinf
  | fin _, ninf => ninf
  | pinf, fin _ => pinf
  | ninf, fin _ => ninf
  | pinf, pinf => pinf
  | ninf, ninf => ninf
  | pinf, ninf => nan
  | ninf, pinf => nan

def sub (a b : EF) : EF := add a (neg b)

def mul : EF → EF → EF
  | nan, _ => nan
  | _, nan => nan
  | fin a, fin b => fin (a * b)
  | fin a, pinf => if a = 0 then nan else if 0 < a then pinf else ninf
  | fin a, ninf => if a = 0 then nan else if 0 < a then ninf else pinf
  | pinf, fin b => if b = 0 then nan else if 0 < b then pinf else ninf
  | ninf, fin b => if b = 0 then nan else if 0 < b then ninf else pinf
  | pinf, pinf => pinf
  | pinf, ninf => ninf
  | ninf, pinf => ninf
  | ninf, ninf => pinf

/-- Division mirroring numpy float64: a finite value divided by (positive)
zero is a signed infinity, `0/0` is NaN, finite over infinite is zero. -/
def div : EF → EF → EF
  | nan, _ => nan
  | _, nan => nan
  | fin a, fin b =>
      if b = 0 then (if a = 0 then nan else if 0 < a then pinf else ninf)
      else fin (a / b)
  | fin _, pinf => fin 0
  | fin _, ninf => fin 0
  | pinf, fin b => if 0 ≤ b then pinf else ninf
  | ninf, fin b => if 0 ≤ b then ninf else pinf
  | pinf, pinf => nan
  | pinf, ninf => nan
  | ninf, pinf => nan
  | ninf, ninf => nan

def isFin : EF → Bool
  | fin _ => true
  | _ => false

theorem add_fin_zero (x : EF) : add x (fin 0) = x := by
  cases x <;> simp [add]

end EF

/-- Running product of a list of `EF` values as pandas `Series.cumprod`
computes it with the default `skipna=True`: NaN entries stay NaN in the
output and do not poison the running accumulator. -/
def cumprodAux : EF → List EF → List EF
  | _, [] => []
  | acc, EF.nan :: xs => EF.nan :: cumprodAux acc xs
  | acc, x :: xs => (EF.mul acc x) :: cumprodAux (EF.mul acc x) xs

def cumprodSkipNA (l : List EF) : List EF := cumprodAux (EF.fin 1) l

/-- Running sum with the same NaN-skipping behaviour (`Series.cumsum`). -/
def cumsumAux : EF → List EF → List EF
  | _, [] => []
  | acc, EF.nan :: xs => EF.nan :: cumsumAux acc xs
  | acc, x :: xs => (EF.add acc x) :: cumsumAux (EF.add acc x) xs

def cumsumSkipNA (l : List EF) : List EF := cumsumAux (EF.fin 0) l

/-- Embedding of `np.nansum`: sums a list treating NaN entries as zero (infinite entries
still contribute, and `+∞ + -∞` yields NaN exactly as in numpy). -/
def nansum (l : List EF) : EF :=
  l.foldl (fun acc x => EF.add acc (if x = EF.nan then EF.fin 0 else x)) (EF.fin 0)

/-- Embedding of `Series.shift(-1)`: every position takes the value one slot later; the
final position becomes NaN. -/
def shiftm1 : List EF → List EF
  | [] => []
  | _ :: t => t ++ [EF.nan]

/-- Embedding of `Series.shift(1)`: every position takes the value one slot earlier; the
first position becomes NaN. -/
def shiftp1 : List EF → List EF
  | [] => []
  | l => EF.nan :: l.dropLast

/-- The point-in-time financial facts the model reads from its
`bloomberg_data` dictionary (`FCFF.py`, constructor).  The two dates and the
market price are display-only and do not enter any computed figure, so they
are not carried here. -/
structure FactBase where
  base_year_revenue : ℚ
  cash : ℚ
  total_debt : ℚ
  shares_outstanding : ℚ
  ebit_balance : ℚ
  invested_capital : ℚ
  base_year_tax : ℚ

/-- The `user_inputs` dictionary consumed by `build_forecast_df`,
`calculate_valuation` and `build_roic_df`: eleven-period assumption vectors
(years 1..10 plus terminal), a ten-period reinvestment-rate vector and the
scalar terminal ROIC. -/
structure SimInput where
  revenue_growth : List ℚ
  operating_margin : List ℚ
  tax_rate : List ℚ
  wacc : List ℚ
  reinvestment_rate : List ℚ
  roic_tv : ℚ

/-- The sequence lengths assumed by the positional list arithmetic of the source. -/
def SimInput.WellFormed (ui : SimInput) : Prop :=
  ui.revenue_growth.length = 11 ∧ ui.operating_margin.length = 11 ∧
  ui.tax_rate.length = 11 ∧ ui.wacc.length = 11 ∧
  ui.reinvestment_rate.length = 10

instance (ui : SimInput) : Decidable ui.WellFormed := by
  unfold SimInput.WellFormed; infer_instance

/-!  The forecast frame (`FCFFModel.build_forecast_df`).  The frame has 12
rows: the base year, forecast years 1..10 and the terminal row.  Each pandas
column is embedded as one list below, translated operation by operation. -/

/-- Source: `revenues = [base]; for g in growth: revenues.append(revenues[-1]*(1+g))`. -/
def revenues (fb : FactBase) (ui : SimInput) : List ℚ :=
  List.scanl (fun r g => r * (1 + g)) fb.base_year_revenue ui.revenue_growth

def revenueCol (fb : FactBase) (ui : SimInput) : List EF :=
  (revenues fb ui).map EF.fin

/-- Column `df["Revenue Growth"] = [np.nan] + user_inputs["revenue_growth"]`. -/
def revenueGrowthCol (ui : SimInput) : List EF :=
  EF.nan :: ui.revenue_growth.map EF.fin

/-- Column `df["EBIT"] = [ebit_balance] + (df["Revenue"][1:12] * operating_margin).tolist()`. -/
def ebit (fb : FactBase) (ui : SimInput) : List ℚ :=
  fb.ebit_balance ::
    List.zipWith (fun r m => r * m) ((revenues fb ui).drop 1) ui.operating_margin

/-- Column `df["EBIT after Tax"] = [np.nan] + (df["EBIT"][1:].values * (1 - tax)).tolist()`. -/
def ebitAfterTax (fb : FactBase) (ui : SimInput) : List EF :=
  EF.nan ::
    List.zipWith (fun e t => EF.fin (e * (1 - t))) ((ebit fb ui).drop 1) ui.tax_rate

/-- Column `df["Reinvestment Rate"] = [np.nan] + reinvestment_rate + [np.nan]`. -/
def reinvestmentRateCol (ui : SimInput) : List EF :=
  EF.nan :: (ui.reinvestment_rate.map EF.fin ++ [EF.nan])

/-- Column `df["Reinvestment"] = ((Revenue.shift(-1) - Revenue) / ReinvestmentRate)
.tolist()[:-1] + [EBITafterTax_T * Growth_T / roic_tv]`; the two `.at`
lookups address the terminal row, position 11 of the 12-row frame. -/
def reinvestment (fb : FactBase) (ui : SimInput) : List EF :=
  (List.zipWith EF.div
      (List.zipWith EF.sub (shiftm1 (revenueCol fb ui)) (revenueCol fb ui))
      (reinvestmentRateCol ui)).dropLast
  ++ [EF.div (EF.mul ((ebitAfterTax fb ui).getD 11 EF.nan)
              ((revenueGrowthCol ui).getD 11 EF.nan))
        (EF.fin ui.roic_tv)]

/-- Column `df["FCFF"] = (EBITafterTax - Reinvestment).iloc[:-1].tolist() + [np.nan]`. -/
def fcff (fb : FactBase) (ui : SimInput) : List EF :=
  (List.zipWith EF.sub (ebitAfterTax fb ui) (reinvestment fb ui)).dropLast
    ++ [EF.nan]

/-- Column `df["WACC"] = [np.nan] + user_inputs["wacc"]`. -/
def waccCol (ui : SimInput) : List EF :=
  EF.nan :: ui.wacc.map EF.fin

/-- Column `df["Discount Factor"] = ((1 + WACC).cumprod() ** -1).iloc[:-1].tolist()
+ [np.nan]`; elementwise `** -1` on float64 is the reciprocal. -/
def discountFactor (ui : SimInput) : List EF :=
  ((cumprodSkipNA ((waccCol ui).map (fun w => EF.add (EF.fin 1) w))).map
      (fun x => EF.div (EF.fin 1) x)).dropLast
    ++ [EF.nan]

/-- Column `df["Discounted FCFF"] = (FCFF * DiscountFactor).iloc[:-1].tolist() + [np.nan]`. -/
def discountedFCFF (fb : FactBase) (ui : SimInput) : List EF :=
  (List.zipWith EF.mul (fcff fb ui) (discountFactor ui)).dropLast ++ [EF.nan]

/-- The scalar rows of the results frame built by
`FCFFModel.calculate_valuation` (the echoed market-price row is display
only and carries no computed figure). -/
structure ValuationResult where
  sum_discounted_fcffs : EF
  tv_fcff : EF
  terminal_value : EF
  discounted_terminal_value : EF
  total_firm_value : EF
  equity_value : EF
  shares_outstanding : ℚ
  fair_value_per_share : EF

/-- Embedding of `FCFFModel.calculate_valuation`, line by line.  `x.at["Terminal Value", c]`
is row 11 of the frame; `x.at[x.index[-2], "Discount Factor"]` is the
second-to-last row; `wacc[-1]` and `revenue_growth[-1]` are the last list
entries. -/
def calculate_valuation (fb : FactBase) (ui : SimInput) : ValuationResult :=
  let s := nansum (discountedFCFF fb ui)
  let tvf := EF.sub ((ebitAfterTax fb ui).getD 11 EF.nan)
               ((reinvestment fb ui).getD 11 EF.nan)
  let tv := EF.div tvf (EF.fin (ui.wacc.getLastD 0 - ui.revenue_growth.getLastD 0))
  let dtv := EF.mul tv
               ((discountFactor ui).getD ((discountFactor ui).length - 2) EF.nan)
  let tfv := EF.add s dtv
  let ev := EF.add (EF.sub tfv (EF.fin fb.total_debt)) (EF.fin fb.cash)
  { sum_discounted_fcffs := s
    tv_fcff := tvf
    terminal_value := tv
    discounted_terminal_value := dtv
    total_firm_value := tfv
    equity_value := ev
    shares_outstanding := fb.shares_outstanding
    fair_value_per_share := EF.div ev (EF.fin fb.shares_outstanding) }

/-!  The ROIC frame (`FCFFModel.build_roic_df`). -/

/-- Source: `invested = [IC] + (Reinvestment.iloc[1:-1].cumsum() + IC).tolist() + [np.nan]`
(`iloc[1:-1]` keeps rows 1..10 of the 12-row reinvestment column). -/
def investedCapital (fb : FactBase) (ui : SimInput) : List EF :=
  EF.fin fb.invested_capital ::
    ((cumsumSkipNA (((reinvestment fb ui).drop 1).dropLast)).map
        (fun x => EF.add x (EF.fin fb.invested_capital))
      ++ [EF.nan])

/-- Rows 1..10 of `(invested.shift(1) + invested) / 2` — the numeric part of
the "Avg Invested Capital" column.  (The source places the display string
"After 10 Years:" in the terminal cell of that column; a non-numeric label
cell is outside the numeric model and is excluded by the `iloc[1:-1]` slice
wherever the column is consumed.) -/
def avgInvestedCore (fb : FactBase) (ui : SimInput) : List EF :=
  (((List.zipWith EF.add (shiftp1 (investedCapital fb ui)) (investedCapital fb ui)).map
      (fun x => EF.div x (EF.fin 2))).drop 1).dropLast

/-- Source: `roic = [np.nan] + (EBITafterTax[1:-1] / AvgInvestedCapital[1:-1]).tolist()
+ [roic_tv]`. -/
def roicCol (fb : FactBase) (ui : SimInput) : List EF :=
  EF.nan ::
    (List.zipWith EF.div (((ebitAfterTax fb ui).drop 1).dropLast)
        (avgInvestedCore fb ui)
      ++ [EF.fin ui.roic_tv])

/-!  The Monte Carlo input sampler (`MC.py`).  Randomness is embedded by
passing the raw draws explicitly: a normal draw may be any rational (normal
distributions have full support), and a lognormal draw with underlying mean
`ln m` and deviation `s` is `exp(ln m + s·z) = m * e` for the strictly
positive factor `e = exp(s·z)`, which is passed as the oracle value. -/

/-- Per-parameter sampling configuration as held in
`MonteCarloInputSimulator.params["revenue_growth"]`. -/
structure GrowthCfg where
  mean : ℚ
  std : ℚ
  terminal_mean : ℚ
  terminal_std : ℚ
  structured : Bool
  clip_min : Option ℚ
  clip_max : Option ℚ

/-- Configuration shape shared by `wacc` and `operating_margin`. -/
structure TermCfg where
  mean : ℚ
  std : ℚ
  terminal_mean : ℚ
  terminal_std : ℚ
  clip_min : Option ℚ
  clip_max : Option ℚ

/-- Configuration of `reinvestment_rate` (lognormal, `size` draws). -/
structure RRCfg where
  mean : ℚ
  std : ℚ
  size : ℕ
  clip_min : Option ℚ
  clip_max : Option ℚ

/-- Configuration of scalar parameters (`roic_tv`). -/
structure ScalarCfg where
  mean : ℚ
  std : ℚ
  clip_min : Option ℚ
  clip_max : Option ℚ

structure Params where
  revenue_growth : GrowthCfg
  operating_margin : TermCfg
  reinvestment_rate : RRCfg
  wacc : TermCfg
  roic_tv : ScalarCfg

/-- Embedding of `np.clip(x, lo, hi)` = `minimum(maximum(x, lo), hi)`; an absent bound
(`cfg.get(..., ±np.inf)`) leaves that side unbounded. -/
def npClip (x : ℚ) (lo hi : Option ℚ) : ℚ :=
  let y := match lo with
    | some l => max x l
    | none => x
  match hi with
  | some h => min y h
  | none => y

/-- Embedding of `np.linspace(a, b, 6)`: six equally spaced points `a + k*(b-a)/5`,
`k = 0..5`, with the final entry set to the stop value `b` exactly (numpy
overwrites the endpoint; in rational arithmetic `a + 5*(b-a)/5 = b` anyway). -/
def linspace6 (a b : ℚ) : List ℚ :=
  let step := (b - a) / 5
  [a, a + step, a + 2 * step, a + 3 * step, a + 4 * step, b]

/-- Embedding of `MonteCarloInputSimulator._simulate_structured_growth` given the two raw
normal draws `z1` (years 1..5 level) and `zT` (terminal level):
`[g1]*5 + np.linspace(g1, g_terminal, 6)[1:].tolist() + [g_terminal]`. -/
def simulate_structured_growth (cfg : GrowthCfg) (z1 zT : ℚ) : List ℚ :=
  let g1 := npClip z1 cfg.clip_min cfg.clip_max
  let gT := npClip zT cfg.clip_min cfg.clip_max
  List.replicate 5 g1 ++ (linspace6 g1 gT).drop 1 ++ [gT]

/-- The raw random draws consumed by one Monte Carlo trial: each stream
position is the value one `np.random` call would return. -/
structure TrialDraws where
  growth_z1 : ℚ
  growth_zT : ℚ
  margin_z : ℕ → ℚ
  margin_zT : ℚ
  wacc_z : ℕ → ℚ
  wacc_zT : ℚ
  rr_e : ℕ → ℚ
  roic_z : ℚ

/-- The `wacc` / `operating_margin` branch of `simulate_all`: ten clipped
normal draws plus one clipped terminal draw. -/
def sampleTermList (cfg : TermCfg) (z : ℕ → ℚ) (zT : ℚ) : List ℚ :=
  ((List.range 10).map (fun k => npClip (z k) cfg.clip_min cfg.clip_max))
    ++ [npClip zT cfg.clip_min cfg.clip_max]

/-- The `reinvestment_rate` branch: `size` clipped lognormal draws, each
lognormal value `m * e_k` with `e_k > 0` the positive exponential factor. -/
def sampleReinvestment (cfg : RRCfg) (e : ℕ → ℚ) : List ℚ :=
  (List.range cfg.size).map (fun k => npClip (cfg.mean * e k) cfg.clip_min cfg.clip_max)

/-- The scalar branch (`roic_tv`): one clipped normal draw.  (The source
clips only when a bound key is present; with absent bounds `npClip` is the
identity, so the unconditional form is equivalent.) -/
def sampleScalar (cfg : ScalarCfg) (z : ℚ) : ℚ :=
  npClip z cfg.clip_min cfg.clip_max

/-- One iteration of the `simulate_all` loop.  The non-structured
revenue-growth branch of the source falls through to the scalar branch and
returns a bare float, which `build_forecast_df` cannot consume; the program
only runs with `structured = True`, and that unused degenerate branch is
modelled as an empty vector.  `tax_rate` is the constant constructor rate
broadcast over all 11 periods. -/
def simulateTrial (p : Params) (tax : ℚ) (d : TrialDraws) : SimInput :=
  { revenue_growth :=
      if p.revenue_growth.structured then
        simulate_structured_growth p.revenue_growth d.growth_z1 d.growth_zT
      else []
    operating_margin := sampleTermList p.operating_margin d.margin_z d.margin_zT
    tax_rate := List.replicate 11 tax
    wacc := sampleTermList p.wacc d.wacc_z d.wacc_zT
    reinvestment_rate := sampleReinvestment p.reinvestment_rate d.rr_e
    roic_tv := sampleScalar p.roic_tv d.roic_z }

/-- Embedding of `MonteCarloInputSimulator.simulate_all`: one freshly sampled assumption
set per trial, `n_iter` trials, trial `t` consuming the draw block `D t`. -/
def simulate_all (p : Params) (tax : ℚ) (n_iter : ℕ) (D : ℕ → TrialDraws) :
    List SimInput :=
  (List.range n_iter).map (fun t => simulateTrial p tax (D t))

/-- Embedding of `MonteCarloInputSimulator.calculate_mc`: one fair value per simulated
input (the loop also regenerates the date index, which carries no numeric
content). -/
def calculate_mc (fb : FactBase) (sim_inputs : List SimInput) : List EF :=
  sim_inputs.map (fun ui => (calculate_valuation fb ui).fair_value_per_share)

/-!  Helper lemmas: exposing the elements of a fixed-length list, and basic
facts about the clipping clamp. -/

theorem eq_of_len10 {α : Type} {l : List α} (h : l.length = 10) :
    ∃ a1 a2 a3 a4 a5 a6 a7 a8 a9 a10,
      l = [a1, a2, a3, a4, a5, a6, a7, a8, a9, a10] := by
  rcases l with _ | ⟨a1, l⟩
  · simp only [List.length_nil] at h; omega
  rcases l with _ | ⟨a2, l⟩
  · simp only [List.length_cons, List.length_nil] at h; omega
  rcases l with _ | ⟨a3, l⟩
  · simp only [List.length_cons, List.length_nil] at h; omega
  rcases l with _ | ⟨a4, l⟩
  · simp only [List.length_cons, List.length_nil] at h; omega
  rcases l with _ | ⟨a5, l⟩
  · simp only [List.length_cons, List.length_nil] at h; omega
  rcases l with _ | ⟨a6, l⟩
  · simp only [List.length_cons, List.length_nil] at h; omega
  rcases l with _ | ⟨a7, l⟩
  · simp only [List.length_cons, List.length_nil] at h; omega
  rcases l with _ | ⟨a8, l⟩
  · simp only [List.length_cons, List.length_nil] at h; omega
  rcases l with _ | ⟨a9, l⟩
  · simp only [List.length_cons, List.length_nil] at h; omega
  rcases l with _ | ⟨a10, l⟩
  · simp only [List.length_cons, List.length_nil] at h; omega
  rcases l with _ | ⟨a11, l⟩
  · exact ⟨a1, a2, a3, a4, a5, a6, a7, a8, a9, a10, rfl⟩
  · simp only [List.length_cons] at h; omega

theorem eq_of_len11 {α : Type} {l : List α} (h : l.length = 11) :
    ∃ a1 a2 a3 a4 a5 a6 a7 a8 a9 a10 a11,
      l = [a1, a2, a3, a4, a5, a6, a7, a8, a9, a10, a11] := by
  rcases l with _ | ⟨a1, l⟩
  · simp only [List.length_nil] at h; omega
  obtain ⟨b1, b2, b3, b4, b5, b6, b7, b8, b9, b10, rfl⟩ :=
    eq_of_len10 (l := l) (by simpa using h)
  exact ⟨a1, b1, b2, b3, b4, b5, b6, b7, b8, b9, b10, rfl⟩

theorem npClip_le_and_ge {x lo hi : ℚ} (h : lo ≤ hi) :
    lo ≤ npClip x (some lo) (some hi) ∧ npClip x (some lo) (some hi) ≤ hi := by
  refine ⟨le_min (le_max_right x lo) h, min_le_right _ _⟩

theorem npClip_const (x c : ℚ) : npClip x (some c) (some c) = c := by
  simp [npClip, min_eq_right (le_max_right x c)]

theorem npClip_pos {x : ℚ} (lo hi : Option ℚ) (hx : 0 < x)
    (hhi : ∀ h, hi = some h → 0 < h) : 0 < npClip x lo hi := by
  cases lo with
  | none =>
      cases hi with
      | none => simpa [npClip] using hx
      | some h => exact lt_min hx (hhi h rfl)
  | some l =>
      cases hi with
      | none => exact lt_of_lt_of_le hx (by simp [npClip, le_max_left])
      | some h =>
          exact lt_min (lt_of_lt_of_le hx (le_max_left x l)) (hhi h rfl)

/-- A point of the linear interpolation between two values that both lie in
an interval lies in that interval. -/
theorem interp_mem {lo hi a b : ℚ} (k : ℚ) (hk0 : 0 ≤ k) (hk5 : k ≤ 5)
    (ha1 : lo ≤ a) (ha2 : a ≤ hi) (hb1 : lo ≤ b) (hb2 : b ≤ hi) :
    lo ≤ a + k * ((b - a) / 5) ∧ a + k * ((b - a) / 5) ≤ hi := by
  constructor
  · nlinarith [mul_nonneg hk0 (sub_nonneg.2 hb1),
      mul_nonneg (sub_nonneg.2 hk5) (sub_nonneg.2 ha1)]
  · nlinarith [mul_nonneg hk0 (sub_nonneg.2 hb2),
      mul_nonneg (sub_nonneg.2 hk5) (sub_nonneg.2 ha2)]

/-- C6: the forecast revenue satisfies `Revenue[0] = base_revenue` and
`Revenue[i] = Revenue[i-1] * (1 + growth[i])` for every period `i = 1..11`
(terminal included); with all growth rates zero the revenue is constant and
equal to the base revenue. -/
theorem c6_revenue_recurrence (fb : FactBase) (ui : SimInput)
    (hwf : ui.WellFormed) :
    (revenues fb ui).getD 0 0 = fb.base_year_revenue ∧
    (∀ i, 1 ≤ i → i ≤ 11 →
      (revenues fb ui).getD i 0 =
        (revenues fb ui).getD (i - 1) 0 * (1 + ui.revenue_growth.getD (i - 1) 0)) ∧
    (ui.revenue_growth = List.replicate 11 0 →
      ∀ i, i ≤ 11 → (revenues fb ui).getD i 0 = fb.base_year_revenue) := by
  obtain ⟨G, M, T, W, R, rv⟩ := ui
  obtain ⟨hg, hm, ht, hw, hr⟩ := hwf
  obtain ⟨g1, g2, g3, g4, g5, g6, g7, g8, g9, g10, g11, rfl⟩ := eq_of_len11 hg
  refine ⟨by simp [revenues], ?_, ?_⟩
  · intro i h1 h2
    interval_cases i <;> simp [revenues]
  · intro hG
    simp only [List.replicate, List.cons.injEq, and_true] at hG
    obtain ⟨e1, e2, e3, e4, e5, e6, e7, e8, e9, e10, e11⟩ := hG
    subst e1; subst e2; subst e3; subst e4; subst e5; subst e6
    subst e7; subst e8; subst e9; subst e10; subst e11
    intro i hi
    interval_cases i <;> simp [revenues]

/-- C7: every structured revenue-growth vector has length 11 with the shape
5 + 4 + 1 + 1: five copies of the clipped draw `g1`, the four strictly
interior points of the linear interpolation from `g1` to the clipped
terminal draw, then the clipped terminal draw twice. -/
theorem c7_structured_growth_shape (cfg : GrowthCfg) (z1 zT : ℚ) :
    (simulate_structured_growth cfg z1 zT).length = 11 ∧
    simulate_structured_growth cfg z1 zT =
      [npClip z1 cfg.clip_min cfg.clip_max,
       npClip z1 cfg.clip_min cfg.clip_max,
       npClip z1 cfg.clip_min cfg.clip_max,
       npClip z1 cfg.clip_min cfg.clip_max,
       npClip z1 cfg.clip_min cfg.clip_max,
       npClip z1 cfg.clip_min cfg.clip_max +
         1 * ((npClip zT cfg.clip_min cfg.clip_max - npClip z1 cfg.clip_min cfg.clip_max) / 5),
       npClip z1 cfg.clip_min cfg.clip_max +
         2 * ((npClip zT cfg.clip_min cfg.clip_max - npClip z1 cfg.clip_min cfg.clip_max) / 5),
       npClip z1 cfg.clip_min cfg.clip_max +
         3 * ((npClip zT cfg.clip_min cfg.clip_max - npClip z1 cfg.clip_min cfg.clip_max) / 5),
       npClip z1 cfg.clip_min cfg.clip_max +
         4 * ((npClip zT cfg.clip_min cfg.clip_max - npClip z1 cfg.clip_min cfg.clip_max) / 5),
       npClip zT cfg.clip_min cfg.clip_max,
       npClip zT cfg.clip_min cfg.clip_max] := by
  constructor
  · simp [simulate_structured_growth, linspace6]
  · simp only [simulate_structured_growth, linspace6, List.replicate]
    norm_num

/-- C2: for a well-formed assumption set the forecast discount factor at
period `i = 1..10` is exactly the reciprocal of the cumulative product
`∏ (1 + wacc[k])` over periods `1..i`, while the base-year row and the
terminal row carry no discount factor of their own (NaN cells). -/
theorem c2_discount_factor (ui : SimInput) (hwf : ui.WellFormed) :
    (∀ i, 1 ≤ i → i ≤ 10 →
      (discountFactor ui).getD i EF.nan =
        EF.div (EF.fin 1)
          (EF.fin (((ui.wacc.take i).map (fun w => 1 + w)).prod))) ∧
    (discountFactor ui).getD 0 EF.nan = EF.nan ∧
    (discountFactor ui).getD 11 EF.nan = EF.nan := by
  obtain ⟨G, M, T, W, R, rv⟩ := ui
  obtain ⟨hg, hm, ht, hw, hr⟩ := hwf
  obtain ⟨w1, w2, w3, w4, w5, w6, w7, w8, w9, w10, w11, rfl⟩ := eq_of_len11 hw
  refine ⟨?_, ?_, ?_⟩
  · intro i h1 h2
    interval_cases i <;>
      simp [discountFactor, waccCol, cumprodSkipNA, cumprodAux, EF.add, EF.mul,
        List.dropLast, mul_assoc]
  · simp [discountFactor, waccCol, cumprodSkipNA, cumprodAux, EF.add, EF.mul, EF.div,
      List.dropLast]
  · simp [discountFactor, waccCol, cumprodSkipNA, cumprodAux, EF.add, EF.mul,
      List.dropLast]

/-- C3: with nonzero reinvestment rates, the forecast reinvestment for
period `i = 1..10` is the revenue of the next period minus the current one,
divided by the reinvestment rate of the period (one-step lookahead; period 11
is the terminal-row revenue), and the terminal reinvestment is the terminal
after-tax EBIT times the terminal growth rate divided by `roic_tv`. -/
theorem c3_reinvestment_formula (fb : FactBase) (ui : SimInput)
    (hwf : ui.WellFormed) (hr : ∀ r ∈ ui.reinvestment_rate, r ≠ 0) :
    (∀ i, 1 ≤ i → i ≤ 10 →
      (reinvestment fb ui).getD i EF.nan =
        EF.fin (((revenues fb ui).getD (i + 1) 0 - (revenues fb ui).getD i 0) /
          ui.reinvestment_rate.getD (i - 1) 0)) ∧
    (reinvestment fb ui).getD 11 EF.nan =
      EF.div (EF.mul ((ebitAfterTax fb ui).getD 11 EF.nan)
          (EF.fin (ui.revenue_growth.getD 10 0)))
        (EF.fin ui.roic_tv) := by
  obtain ⟨G, M, T, W, R, rv⟩ := ui
  obtain ⟨hg, hm, ht, hw, hrr⟩ := hwf
  obtain ⟨g1, g2, g3, g4, g5, g6, g7, g8, g9, g10, g11, rfl⟩ := eq_of_len11 hg
  obtain ⟨r1, r2, r3, r4, r5, r6, r7, r8, r9, r10, rfl⟩ := eq_of_len10 hrr
  have h1 : r1 ≠ 0 := hr r1 (by simp)
  have h2 : r2 ≠ 0 := hr r2 (by simp)
  have h3 : r3 ≠ 0 := hr r3 (by simp)
  have h4 : r4 ≠ 0 := hr r4 (by simp)
  have h5 : r5 ≠ 0 := hr r5 (by simp)
  have h6 : r6 ≠ 0 := hr r6 (by simp)
  have h7 : r7 ≠ 0 := hr r7 (by simp)
  have h8 : r8 ≠ 0 := hr r8 (by simp)
  have h9 : r9 ≠ 0 := hr r9 (by simp)
  have h10 : r10 ≠ 0 := hr r10 (by simp)
  constructor
  · intro i hi1 hi2
    interval_cases i <;>
      simp [reinvestment, revenues, revenueCol, reinvestmentRateCol, shiftm1,
        EF.sub, EF.neg, EF.add, EF.div, List.dropLast, h1, h2, h3, h4, h5, h6,
        h7, h8, h9, h10, sub_eq_add_neg]
  · simp [reinvestment, revenues, revenueCol, revenueGrowthCol,
      reinvestmentRateCol, shiftm1, List.dropLast]

/-- Witness for C3 at the deterministic NVDA scenario of `Main.py` restricted
to simple rationals: all hypotheses hold and the year-1 equation follows. -/
theorem c3_reinvestment_formula_witness :
    (SimInput.WellFormed
      { revenue_growth := [1/10, 1/10, 1/10, 1/10, 1/10, 1/10, 1/10, 1/10, 1/10, 1/10, 43/1000]
        operating_margin := List.replicate 11 (9/20)
        tax_rate := List.replicate 11 (71/500)
        wacc := List.replicate 11 (49/500)
        reinvestment_rate := List.replicate 10 2
        roic_tv := 1/5 }) ∧
    (∀ r ∈ (List.replicate 10 (2 : ℚ)), r ≠ 0) ∧
    (reinvestment ⟨245122, 0, 0, 1, 109433, 0, 71/500⟩
      { revenue_growth := [1/10, 1/10, 1/10, 1/10, 1/10, 1/10, 1/10, 1/10, 1/10, 1/10, 43/1000]
        operating_margin := List.replicate 11 (9/20)
        tax_rate := List.replicate 11 (71/500)
        wacc := List.replicate 11 (49/500)
        reinvestment_rate := List.replicate 10 2
        roic_tv := 1/5 }).getD 1 EF.nan =
      EF.fin (((revenues ⟨245122, 0, 0, 1, 109433, 0, 71/500⟩
      { revenue_growth := [1/10, 1/10, 1/10, 1/10, 1/10, 1/10, 1/10, 1/10, 1/10, 1/10, 43/1000]
        operating_margin := List.replicate 11 (9/20)
        tax_rate := List.replicate 11 (71/500)
        wacc := List.replicate 11 (49/500)
        reinvestment_rate := List.replicate 10 2
        roic_tv := 1/5 }).getD 2 0 -
        (revenues ⟨245122, 0, 0, 1, 109433, 0, 71/500⟩
      { revenue_growth := [1/10, 1/10, 1/10, 1/10, 1/10, 1/10, 1/10, 1/10, 1/10, 1/10, 43/1000]
        operating_margin := List.replicate 11 (9/20)
        tax_rate := List.replicate 11 (71/500)
        wacc := List.replicate 11 (49/500)
        reinvestment_rate := List.replicate 10 2
        roic_tv := 1/5 }).getD 1 0) /
        (List.replicate 10 (2 : ℚ)).getD 0 0) :=
  ⟨by decide, by decide,
    (c3_reinvestment_formula ⟨245122, 0, 0, 1, 109433, 0, 71/500⟩
      { revenue_growth := [1/10, 1/10, 1/10, 1/10, 1/10, 1/10, 1/10, 1/10, 1/10, 1/10, 43/1000]
        operating_margin := List.replicate 11 (9/20)
        tax_rate := List.replicate 11 (71/500)
        wacc := List.replicate 11 (49/500)
        reinvestment_rate := List.replicate 10 2
        roic_tv := 1/5 }
      (by decide) (by decide)).1 1 (by decide) (by decide)⟩

/-- Witness for C2 at a constant 10 percent WACC vector: the year-10
discount factor equals the reciprocal of the ten-fold product of `1.1`. -/
theorem c2_discount_factor_witness :
    (SimInput.WellFormed
      { revenue_growth := List.replicate 11 (1/10)
        operating_margin := List.replicate 11 (2/5)
        tax_rate := List.replicate 11 (1/10)
        wacc := List.replicate 11 (1/10)
        reinvestment_rate := List.replicate 10 2
        roic_tv := 1/5 }) ∧
    (discountFactor
      { revenue_growth := List.replicate 11 (1/10)
        operating_margin := List.replicate 11 (2/5)
        tax_rate := List.replicate 11 (1/10)
        wacc := List.replicate 11 (1/10)
        reinvestment_rate := List.replicate 10 2
        roic_tv := 1/5 }).getD 10 EF.nan =
      EF.div (EF.fin 1)
        (EF.fin ((((List.replicate 11 ((1:ℚ)/10)).take 10).map (fun w => 1 + w)).prod)) :=
  ⟨by decide,
    (c2_discount_factor
      { revenue_growth := List.replicate 11 (1/10)
        operating_margin := List.replicate 11 (2/5)
        tax_rate := List.replicate 11 (1/10)
        wacc := List.replicate 11 (1/10)
        reinvestment_rate := List.replicate 10 2
        roic_tv := 1/5 } (by decide)).1 10 (by decide) (by decide)⟩

/-- Witness for C6: at a concrete well-formed assumption set the base-year
revenue cell carries the base revenue of the fact base, and with eleven zero
growth rates year-11 revenue still equals the base revenue. -/
theorem c6_revenue_recurrence_witness :
    (SimInput.WellFormed
      { revenue_growth := List.replicate 11 0
        operating_margin := List.replicate 11 (2/5)
        tax_rate := List.replicate 11 (1/10)
        wacc := List.replicate 11 (1/10)
        reinvestment_rate := List.replicate 10 2
        roic_tv := 1/5 }) ∧
    (revenues ⟨100, 5, 7, 2, 40, 50, 1/10⟩
      { revenue_growth := List.replicate 11 0
        operating_margin := List.replicate 11 (2/5)
        tax_rate := List.replicate 11 (1/10)
        wacc := List.replicate 11 (1/10)
        reinvestment_rate := List.replicate 10 2
        roic_tv := 1/5 }).getD 0 0 =
      (⟨100, 5, 7, 2, 40, 50, 1/10⟩ : FactBase).base_year_revenue ∧
    (revenues ⟨100, 5, 7, 2, 40, 50, 1/10⟩
      { revenue_growth := List.replicate 11 0
        operating_margin := List.replicate 11 (2/5)
        tax_rate := List.replicate 11 (1/10)
        wacc := List.replicate 11 (1/10)
        reinvestment_rate := List.replicate 10 2
        roic_tv := 1/5 }).getD 11 0 =
      (⟨100, 5, 7, 2, 40, 50, 1/10⟩ : FactBase).base_year_revenue :=
  ⟨by decide,
    (c6_revenue_recurrence ⟨100, 5, 7, 2, 40, 50, 1/10⟩
      { revenue_growth := List.replicate 11 0
        operating_margin := List.replicate 11 (2/5)
        tax_rate := List.replicate 11 (1/10)
        wacc := List.replicate 11 (1/10)
        reinvestment_rate := List.replicate 10 2
        roic_tv := 1/5 } (by decide)).1,
    (c6_revenue_recurrence ⟨100, 5, 7, 2, 40, 50, 1/10⟩
      { revenue_growth := List.replicate 11 0
        operating_margin := List.replicate 11 (2/5)
        tax_rate := List.replicate 11 (1/10)
        wacc := List.replicate 11 (1/10)
        reinvestment_rate := List.replicate 10 2
        roic_tv := 1/5 } (by decide)).2.2 (by decide) 11 (by decide)⟩

theorem EF.pinf_eq_nan : (EF.pinf = EF.nan) = False := by simp

theorem EF.ninf_eq_nan : (EF.ninf = EF.nan) = False := by simp

theorem EF.fin_eq_nan (q : ℚ) : (EF.fin q = EF.nan) = False := by simp

/-- C4: evaluation at the failing input.  With `reinvestment_rate[1] = 0`
(all other inputs well formed) no error is raised anywhere in the pipeline;
the division by zero produces an infinity that propagates through FCFF,
Discounted FCFF and the NaN-safe sum into the final Fair Value per Share,
which comes out as `-∞` instead of an explicit configuration error. -/
theorem c4_degenerate_division_propagates :
    (calculate_valuation ⟨1, 0, 0, 1, 1, 1, 0⟩
      { revenue_growth := [1, 1, 1, 1, 1, 1, 1, 1, 1, 1, 1]
        operating_margin := [1, 1, 1, 1, 1, 1, 1, 1, 1, 1, 1]
        tax_rate := [0, 0, 0, 0, 0, 0, 0, 0, 0, 0, 0]
        wacc := [1, 1, 1, 1, 1, 1, 1, 1, 1, 1, 2]
        reinvestment_rate := [0, 1, 1, 1, 1, 1, 1, 1, 1, 1]
        roic_tv := 1 }).fair_value_per_share = EF.ninf := by
  norm_num [calculate_valuation, discountedFCFF, discountFactor, fcff,
    ebitAfterTax, ebit, revenues, revenueCol, revenueGrowthCol, reinvestment,
    reinvestmentRateCol, waccCol, shiftm1, cumprodSkipNA, cumprodAux, nansum,
    EF.add, EF.sub, EF.neg, EF.mul, EF.div, List.dropLast, List.getLastD,
    EF.pinf_eq_nan, EF.ninf_eq_nan, EF.fin_eq_nan]

/-- C5 counterexample: the invested capital of the ROIC frame at year 10 is a
present finite figure (here the base invested capital 50, all growth rates
being zero), not an absent cell, contradicting the claim that the
roll-forward stops at year 9 and leaves the year-10 figure absent. -/
theorem c5_counterexample_year10_present :
    (investedCapital ⟨100, 5, 7, 2, 40, 50, 1/10⟩
      { revenue_growth := [0, 0, 0, 0, 0, 0, 0, 0, 0, 0, 0]
        operating_margin := [2/5, 2/5, 2/5, 2/5, 2/5, 2/5, 2/5, 2/5, 2/5, 2/5, 2/5]
        tax_rate := [1/10, 1/10, 1/10, 1/10, 1/10, 1/10, 1/10, 1/10, 1/10, 1/10, 1/10]
        wacc := [1/10, 1/10, 1/10, 1/10, 1/10, 1/10, 1/10, 1/10, 1/10, 1/10, 1/10]
        reinvestment_rate := [2, 2, 2, 2, 2, 2, 2, 2, 2, 2]
        roic_tv := 1/5 }).getD 10 EF.nan = EF.fin 50 ∧
    EF.fin 50 ≠ EF.nan := by
  constructor
  · norm_num [investedCapital, reinvestment, revenues, revenueCol,
      revenueGrowthCol, reinvestmentRateCol, ebitAfterTax, ebit, shiftm1,
      cumsumSkipNA, cumsumAux, EF.add, EF.sub, EF.neg, EF.mul, EF.div,
      List.dropLast, EF.pinf_eq_nan, EF.ninf_eq_nan, EF.fin_eq_nan]
  · decide

/-- C5 as amended: `InvestedCapital[0]` is the invested capital of the fact base,
the roll-forward `InvestedCapital[i] = InvestedCapital[i-1] + Reinvestment[i]`
holds for every `i = 1..10` (year 10 included), only the terminal
invested-capital cell is absent, and the terminal ROIC row carries the
externally supplied `roic_tv` unchanged. -/
theorem c5_invested_capital_rollforward (fb : FactBase) (ui : SimInput)
    (hwf : ui.WellFormed) (hr : ∀ r ∈ ui.reinvestment_rate, r ≠ 0) :
    (investedCapital fb ui).getD 0 EF.nan = EF.fin fb.invested_capital ∧
    (∀ i, 1 ≤ i → i ≤ 10 →
      (investedCapital fb ui).getD i EF.nan =
        EF.add ((investedCapital fb ui).getD (i - 1) EF.nan)
          ((reinvestment fb ui).getD i EF.nan)) ∧
    (investedCapital fb ui).getD 11 EF.nan = EF.nan ∧
    (roicCol fb ui).getD 11 EF.nan = EF.fin ui.roic_tv := by
  obtain ⟨G, M, T, W, R, rv⟩ := ui
  obtain ⟨hg, hm, ht, hw, hrr⟩ := hwf
  obtain ⟨g1, g2, g3, g4, g5, g6, g7, g8, g9, g10, g11, rfl⟩ := eq_of_len11 hg
  obtain ⟨m1, m2, m3, m4, m5, m6, m7, m8, m9, m10, m11, rfl⟩ := eq_of_len11 hm
  obtain ⟨t1, t2, t3, t4, t5, t6, t7, t8, t9, t10, t11, rfl⟩ := eq_of_len11 ht
  obtain ⟨r1, r2, r3, r4, r5, r6, r7, r8, r9, r10, rfl⟩ := eq_of_len10 hrr
  have h1 : r1 ≠ 0 := hr r1 (by simp)
  have h2 : r2 ≠ 0 := hr r2 (by simp)
  have h3 : r3 ≠ 0 := hr r3 (by simp)
  have h4 : r4 ≠ 0 := hr r4 (by simp)
  have h5 : r5 ≠ 0 := hr r5 (by simp)
  have h6 : r6 ≠ 0 := hr r6 (by simp)
  have h7 : r7 ≠ 0 := hr r7 (by simp)
  have h8 : r8 ≠ 0 := hr r8 (by simp)
  have h9 : r9 ≠ 0 := hr r9 (by simp)
  have h10 : r10 ≠ 0 := hr r10 (by simp)
  refine ⟨?_, ?_, ?_, ?_⟩
  · simp [investedCapital]
  · intro i hi1 hi2
    interval_cases i <;>
      simp [investedCapital, reinvestment, revenues, revenueCol,
        reinvestmentRateCol, shiftm1, cumsumSkipNA, cumsumAux, EF.add, EF.sub,
        EF.neg, EF.div, List.dropLast, h1, h2, h3, h4, h5, h6, h7, h8, h9, h10] <;>
      abel
  · simp [investedCapital, reinvestment, revenues, revenueCol,
      reinvestmentRateCol, shiftm1, cumsumSkipNA, cumsumAux, EF.add, EF.sub,
      EF.neg, EF.div, List.dropLast, h1, h2, h3, h4, h5, h6, h7, h8, h9, h10]
  · simp [roicCol, avgInvestedCore, investedCapital, reinvestment, revenues,
      revenueCol, revenueGrowthCol, reinvestmentRateCol, ebitAfterTax, ebit,
      shiftp1, shiftm1, cumsumSkipNA, cumsumAux, EF.add, EF.sub, EF.neg,
      EF.div, List.dropLast, h1, h2, h3, h4, h5, h6, h7, h8, h9, h10]

/-- Witness for C5 (amended): all hypotheses hold at a concrete input and
the year-10 roll-forward equation follows. -/
theorem c5_invested_capital_rollforward_witness :
    (SimInput.WellFormed
      { revenue_growth := [1/10, 1/10, 1/10, 1/10, 1/10, 1/10, 1/10, 1/10, 1/10, 1/10, 43/1000]
        operating_margin := [9/20, 9/20, 9/20, 9/20, 9/20, 9/20, 9/20, 9/20, 9/20, 9/20, 9/20]
        tax_rate := [1/10, 1/10, 1/10, 1/10, 1/10, 1/10, 1/10, 1/10, 1/10, 1/10, 1/10]
        wacc := [1/10, 1/10, 1/10, 1/10, 1/10, 1/10, 1/10, 1/10, 1/10, 1/10, 1/10]
        reinvestment_rate := [2, 2, 2, 2, 2, 2, 2, 2, 2, 2]
        roic_tv := 1/5 }) ∧
    (∀ r ∈ ([2, 2, 2, 2, 2, 2, 2, 2, 2, 2] : List ℚ), r ≠ 0) ∧
    (investedCapital ⟨100, 5, 7, 2, 40, 50, 1/10⟩
      { revenue_growth := [1/10, 1/10, 1/10, 1/10, 1/10, 1/10, 1/10, 1/10, 1/10, 1/10, 43/1000]
        operating_margin := [9/20, 9/20, 9/20, 9/20, 9/20, 9/20, 9/20, 9/20, 9/20, 9/20, 9/20]
        tax_rate := [1/10, 1/10, 1/10, 1/10, 1/10, 1/10, 1/10, 1/10, 1/10, 1/10, 1/10]
        wacc := [1/10, 1/10, 1/10, 1/10, 1/10, 1/10, 1/10, 1/10, 1/10, 1/10, 1/10]
        reinvestment_rate := [2, 2, 2, 2, 2, 2, 2, 2, 2, 2]
        roic_tv := 1/5 }).getD 10 EF.nan =
      EF.add ((investedCapital ⟨100, 5, 7, 2, 40, 50, 1/10⟩
      { revenue_growth := [1/10, 1/10, 1/10, 1/10, 1/10, 1/10, 1/10, 1/10, 1/10, 1/10, 43/1000]
        operating_margin := [9/20, 9/20, 9/20, 9/20, 9/20, 9/20, 9/20, 9/20, 9/20, 9/20, 9/20]
        tax_rate := [1/10, 1/10, 1/10, 1/10, 1/10, 1/10, 1/10, 1/10, 1/10, 1/10, 1/10]
        wacc := [1/10, 1/10, 1/10, 1/10, 1/10, 1/10, 1/10, 1/10, 1/10, 1/10, 1/10]
        reinvestment_rate := [2, 2, 2, 2, 2, 2, 2, 2, 2, 2]
        roic_tv := 1/5 }).getD 9 EF.nan)
        ((reinvestment ⟨100, 5, 7, 2, 40, 50, 1/10⟩
      { revenue_growth := [1/10, 1/10, 1/10, 1/10, 1/10, 1/10, 1/10, 1/10, 1/10, 1/10, 43/1000]
        operating_margin := [9/20, 9/20, 9/20, 9/20, 9/20, 9/20, 9/20, 9/20, 9/20, 9/20, 9/20]
        tax_rate := [1/10, 1/10, 1/10, 1/10, 1/10, 1/10, 1/10, 1/10, 1/10, 1/10, 1/10]
        wacc := [1/10, 1/10, 1/10, 1/10, 1/10, 1/10, 1/10, 1/10, 1/10, 1/10, 1/10]
        reinvestment_rate := [2, 2, 2, 2, 2, 2, 2, 2, 2, 2]
        roic_tv := 1/5 }).getD 10 EF.nan) :=
  ⟨by decide, by decide,
    (c5_invested_capital_rollforward ⟨100, 5, 7, 2, 40, 50, 1/10⟩
      { revenue_growth := [1/10, 1/10, 1/10, 1/10, 1/10, 1/10, 1/10, 1/10, 1/10, 1/10, 43/1000]
        operating_margin := [9/20, 9/20, 9/20, 9/20, 9/20, 9/20, 9/20, 9/20, 9/20, 9/20, 9/20]
        tax_rate := [1/10, 1/10, 1/10, 1/10, 1/10, 1/10, 1/10, 1/10, 1/10, 1/10, 1/10]
        wacc := [1/10, 1/10, 1/10, 1/10, 1/10, 1/10, 1/10, 1/10, 1/10, 1/10, 1/10]
        reinvestment_rate := [2, 2, 2, 2, 2, 2, 2, 2, 2, 2]
        roic_tv := 1/5 }
      (by decide) (by decide)).2.1 10 (by decide) (by decide)⟩

theorem EF.nan_add (x : EF) : EF.add EF.nan x = EF.nan := by cases x <;> rfl

theorem EF.add_nan (x : EF) : EF.add x EF.nan = EF.nan := by cases x <;> rfl

theorem EF.add_fin_fin (a b : ℚ) : EF.add (EF.fin a) (EF.fin b) = EF.fin (a + b) := rfl

theorem EF.nan_sub (x : EF) : EF.sub EF.nan x = EF.nan := by cases x <;> rfl

theorem EF.sub_nan (x : EF) : EF.sub x EF.nan = EF.nan := by cases x <;> rfl

theorem EF.sub_fin_fin (a b : ℚ) : EF.sub (EF.fin a) (EF.fin b) = EF.fin (a - b) := by
  simp [EF.sub, EF.neg, EF.add, sub_eq_add_neg]

theorem EF.nan_mul (x : EF) : EF.mul EF.nan x = EF.nan := by cases x <;> rfl

theorem EF.mul_nan (x : EF) : EF.mul x EF.nan = EF.nan := by cases x <;> rfl

theorem EF.mul_fin_fin (a b : ℚ) : EF.mul (EF.fin a) (EF.fin b) = EF.fin (a * b) := rfl

theorem EF.nan_div (x : EF) : EF.div EF.nan x = EF.nan := by cases x <;> rfl

theorem EF.div_nan (x : EF) : EF.div x EF.nan = EF.nan := by cases x <;> rfl

/-- C1: for every fact base with positive shares outstanding and every
well-formed assumption set, the Fair Value per Share produced by
`calculate_valuation` equals `(S + TV_d - total_debt + cash) / shares`,
where `S` is the NaN-safe sum of the Discounted FCFF cells of years 1..10
only (the NaN base-year and terminal cells contribute nothing), `TV_d` is
the Gordon terminal value `(EBITafterTax_T - Reinvestment_T) /
(wacc_T - growth_T)` discounted by the year-10 cumulative factor (no extra
11th-period compounding). -/
theorem c1_fair_value_formula (fb : FactBase) (ui : SimInput)
    (hs : 0 < fb.shares_outstanding) (hwf : ui.WellFormed) :
    (calculate_valuation fb ui).fair_value_per_share =
      EF.div
        (EF.add
          (EF.sub
            (EF.add (nansum (((discountedFCFF fb ui).drop 1).take 10))
              (EF.mul
                (EF.div
                  (EF.sub ((ebitAfterTax fb ui).getD 11 EF.nan)
                    ((reinvestment fb ui).getD 11 EF.nan))
                  (EF.fin (ui.wacc.getD 10 0 - ui.revenue_growth.getD 10 0)))
                ((discountFactor ui).getD 10 EF.nan)))
            (EF.fin fb.total_debt))
          (EF.fin fb.cash))
        (EF.fin fb.shares_outstanding) := by
  obtain ⟨G, M, T, W, R, rv⟩ := ui
  obtain ⟨hg, hm, ht, hw, hrr⟩ := hwf
  obtain ⟨g1, g2, g3, g4, g5, g6, g7, g8, g9, g10, g11, rfl⟩ := eq_of_len11 hg
  obtain ⟨m1, m2, m3, m4, m5, m6, m7, m8, m9, m10, m11, rfl⟩ := eq_of_len11 hm
  obtain ⟨t1, t2, t3, t4, t5, t6, t7, t8, t9, t10, t11, rfl⟩ := eq_of_len11 ht
  obtain ⟨w1, w2, w3, w4, w5, w6, w7, w8, w9, w10, w11, rfl⟩ := eq_of_len11 hw
  obtain ⟨r1, r2, r3, r4, r5, r6, r7, r8, r9, r10, rfl⟩ := eq_of_len10 hrr
  simp [calculate_valuation, discountedFCFF, discountFactor, fcff,
    ebitAfterTax, ebit, revenues, revenueCol, revenueGrowthCol, reinvestment,
    reinvestmentRateCol, waccCol, shiftm1, cumprodSkipNA, cumprodAux, nansum,
    List.dropLast, List.getLastD,
    EF.nan_add, EF.add_nan, EF.add_fin_fin, EF.add_fin_zero,
    EF.nan_sub, EF.sub_nan, EF.sub_fin_fin,
    EF.nan_mul, EF.mul_nan, EF.mul_fin_fin,
    EF.nan_div, EF.div_nan, EF.pinf_eq_nan, EF.ninf_eq_nan, EF.fin_eq_nan]

/-- Witness for C1 at the deterministic NVDA scenario: positive share count
and a well-formed assumption set, with the fair-value decomposition
following by the theorem. -/
theorem c1_fair_value_formula_witness :
    (0 : ℚ) < 2 ∧
    (SimInput.WellFormed
      { revenue_growth := [1/10, 1/10, 1/10, 1/10, 1/10, 1/10, 1/10, 1/10, 1/10, 1/10, 43/1000]
        operating_margin := [9/20, 9/20, 9/20, 9/20, 9/20, 9/20, 9/20, 9/20, 9/20, 9/20, 9/20]
        tax_rate := [71/500, 71/500, 71/500, 71/500, 71/500, 71/500, 71/500, 71/500, 71/500, 71/500, 71/500]
        wacc := [49/500, 49/500, 49/500, 49/500, 49/500, 49/500, 49/500, 49/500, 49/500, 49/500, 21/250]
        reinvestment_rate := [2, 2, 2, 2, 2, 2, 2, 2, 2, 2]
        roic_tv := 1/5 }) ∧
    (calculate_valuation ⟨245122, 8314, 10270, 2, 109433, 50000, 71/500⟩
      { revenue_growth := [1/10, 1/10, 1/10, 1/10, 1/10, 1/10, 1/10, 1/10, 1/10, 1/10, 43/1000]
        operating_margin := [9/20, 9/20, 9/20, 9/20, 9/20, 9/20, 9/20, 9/20, 9/20, 9/20, 9/20]
        tax_rate := [71/500, 71/500, 71/500, 71/500, 71/500, 71/500, 71/500, 71/500, 71/500, 71/500, 71/500]
        wacc := [49/500, 49/500, 49/500, 49/500, 49/500, 49/500, 49/500, 49/500, 49/500, 49/500, 21/250]
        reinvestment_rate := [2, 2, 2, 2, 2, 2, 2, 2, 2, 2]
        roic_tv := 1/5 }).fair_value_per_share =
      EF.div
        (EF.add
          (EF.sub
            (EF.add (nansum (((discountedFCFF ⟨245122, 8314, 10270, 2, 109433, 50000, 71/500⟩
      { revenue_growth := [1/10, 1/10, 1/10, 1/10, 1/10, 1/10, 1/10, 1/10, 1/10, 1/10, 43/1000]
        operating_margin := [9/20, 9/20, 9/20, 9/20, 9/20, 9/20, 9/20, 9/20, 9/20, 9/20, 9/20]
        tax_rate := [71/500, 71/500, 71/500, 71/500, 71/500, 71/500, 71/500, 71/500, 71/500, 71/500, 71/500]
        wacc := [49/500, 49/500, 49/500, 49/500, 49/500, 49/500, 49/500, 49/500, 49/500, 49/500, 21/250]
        reinvestment_rate := [2, 2, 2, 2, 2, 2, 2, 2, 2, 2]
        roic_tv := 1/5 }).drop 1).take 10))
              (EF.mul
                (EF.div
                  (EF.sub ((ebitAfterTax ⟨245122, 8314, 10270, 2, 109433, 50000, 71/500⟩
      { revenue_growth := [1/10, 1/10, 1/10, 1/10, 1/10, 1/10, 1/10, 1/10, 1/10, 1/10, 43/1000]
        operating_margin := [9/20, 9/20, 9/20, 9/20, 9/20, 9/20, 9/20, 9/20, 9/20, 9/20, 9/20]
        tax_rate := [71/500, 71/500, 71/500, 71/500, 71/500, 71/500, 71/500, 71/500, 71/500, 71/500, 71/500]
        wacc := [49/500, 49/500, 49/500, 49/500, 49/500, 49/500, 49/500, 49/500, 49/500, 49/500, 21/250]
        reinvestment_rate := [2, 2, 2, 2, 2, 2, 2, 2, 2, 2]
        roic_tv := 1/5 }).getD 11 EF.nan)
                    ((reinvestment ⟨245122, 8314, 10270, 2, 109433, 50000, 71/500⟩
      { revenue_growth := [1/10, 1/10, 1/10, 1/10, 1/10, 1/10, 1/10, 1/10, 1/10, 1/10, 43/1000]
        operating_margin := [9/20, 9/20, 9/20, 9/20, 9/20, 9/20, 9/20, 9/20, 9/20, 9/20, 9/20]
        tax_rate := [71/500, 71/500, 71/500, 71/500, 71/500, 71/500, 71/500, 71/500, 71/500, 71/500, 71/500]
        wacc := [49/500, 49/500, 49/500, 49/500, 49/500, 49/500, 49/500, 49/500, 49/500, 49/500, 21/250]
        reinvestment_rate := [2, 2, 2, 2, 2, 2, 2, 2, 2, 2]
        roic_tv := 1/5 }).getD 11 EF.nan))
                  (EF.fin (([49/500, 49/500, 49/500, 49/500, 49/500, 49/500, 49/500, 49/500, 49/500, 49/500, 21/250] : List ℚ).getD 10 0 -
                    ([1/10, 1/10, 1/10, 1/10, 1/10, 1/10, 1/10, 1/10, 1/10, 1/10, 43/1000] : List ℚ).getD 10 0)))
                ((discountFactor
      { revenue_growth := [1/10, 1/10, 1/10, 1/10, 1/10, 1/10, 1/10, 1/10, 1/10, 1/10, 43/1000]
        operating_margin := [9/20, 9/20, 9/20, 9/20, 9/20, 9/20, 9/20, 9/20, 9/20, 9/20, 9/20]
        tax_rate := [71/500, 71/500, 71/500, 71/500, 71/500, 71/500, 71/500, 71/500, 71/500, 71/500, 71/500]
        wacc := [49/500, 49/500, 49/500, 49/500, 49/500, 49/500, 49/500, 49/500, 49/500, 49/500, 21/250]
        reinvestment_rate := [2, 2, 2, 2, 2, 2, 2, 2, 2, 2]
        roic_tv := 1/5 }).getD 10 EF.nan)))
            (EF.fin 10270))
          (EF.fin 8314))
        (EF.fin 2) :=
  ⟨by decide, by decide,
    c1_fair_value_formula ⟨245122, 8314, 10270, 2, 109433, 50000, 71/500⟩
      { revenue_growth := [1/10, 1/10, 1/10, 1/10, 1/10, 1/10, 1/10, 1/10, 1/10, 1/10, 43/1000]
        operating_margin := [9/20, 9/20, 9/20, 9/20, 9/20, 9/20, 9/20, 9/20, 9/20, 9/20, 9/20]
        tax_rate := [71/500, 71/500, 71/500, 71/500, 71/500, 71/500, 71/500, 71/500, 71/500, 71/500, 71/500]
        wacc := [49/500, 49/500, 49/500, 49/500, 49/500, 49/500, 49/500, 49/500, 49/500, 49/500, 21/250]
        reinvestment_rate := [2, 2, 2, 2, 2, 2, 2, 2, 2, 2]
        roic_tv := 1/5 }
      (by decide) (by decide)⟩

theorem simulateTrial_wellFormed (p : Params) (tax : ℚ) (d : TrialDraws)
    (hgs : p.revenue_growth.structured = true)
    (hsize : p.reinvestment_rate.size = 10) :
    (simulateTrial p tax d).WellFormed := by
  simp [simulateTrial, SimInput.WellFormed, simulate_structured_growth,
    linspace6, sampleTermList, sampleReinvestment, sampleScalar, hgs, hsize]

theorem reinvestment_isFin_of_rates_nonzero (fb : FactBase) (ui : SimInput)
    (hwf : ui.WellFormed) (hr : ∀ r ∈ ui.reinvestment_rate, r ≠ 0) :
    ∀ i, 1 ≤ i → i ≤ 10 →
      EF.isFin ((reinvestment fb ui).getD i EF.nan) = true := by
  obtain ⟨G, M, T, W, R, rv⟩ := ui
  obtain ⟨hg, hm, ht, hw, hrr⟩ := hwf
  obtain ⟨g1, g2, g3, g4, g5, g6, g7, g8, g9, g10, g11, rfl⟩ := eq_of_len11 hg
  obtain ⟨r1, r2, r3, r4, r5, r6, r7, r8, r9, r10, rfl⟩ := eq_of_len10 hrr
  have h1 : r1 ≠ 0 := hr r1 (by simp)
  have h2 : r2 ≠ 0 := hr r2 (by simp)
  have h3 : r3 ≠ 0 := hr r3 (by simp)
  have h4 : r4 ≠ 0 := hr r4 (by simp)
  have h5 : r5 ≠ 0 := hr r5 (by simp)
  have h6 : r6 ≠ 0 := hr r6 (by simp)
  have h7 : r7 ≠ 0 := hr r7 (by simp)
  have h8 : r8 ≠ 0 := hr r8 (by simp)
  have h9 : r9 ≠ 0 := hr r9 (by simp)
  have h10 : r10 ≠ 0 := hr r10 (by simp)
  intro i hi1 hi2
  interval_cases i <;>
    simp [reinvestment, revenues, revenueCol, reinvestmentRateCol, shiftm1,
      EF.sub, EF.neg, EF.add, EF.div, EF.isFin, List.dropLast,
      h1, h2, h3, h4, h5, h6, h7, h8, h9, h10]

/-- C8: with present clip bounds `clip_min ≤ clip_max` on every parameter,
every element of every sampled parameter — all 11 structured revenue-growth
entries including the interpolated interior ones, all 11 wacc and operating
margin entries, all reinvestment-rate entries and the scalar `roic_tv` —
lies inside the clip interval of its parameter; and in the degenerate case
`clip_min = clip_max = c` the whole revenue-growth vector is the constant
`c` in all 11 positions regardless of the configured mean and deviation. -/
theorem c8_clipping_bounds (p : Params) (tax : ℚ) (d : TrialDraws)
    (glo ghi mlo mhi wlo whi rlo rhi slo shi : ℚ)
    (hgs : p.revenue_growth.structured = true)
    (hgmin : p.revenue_growth.clip_min = some glo)
    (hgmax : p.revenue_growth.clip_max = some ghi) (hgle : glo ≤ ghi)
    (hmmin : p.operating_margin.clip_min = some mlo)
    (hmmax : p.operating_margin.clip_max = some mhi) (hmle : mlo ≤ mhi)
    (hwmin : p.wacc.clip_min = some wlo)
    (hwmax : p.wacc.clip_max = some whi) (hwle : wlo ≤ whi)
    (hrmin : p.reinvestment_rate.clip_min = some rlo)
    (hrmax : p.reinvestment_rate.clip_max = some rhi) (hrle : rlo ≤ rhi)
    (hsmin : p.roic_tv.clip_min = some slo)
    (hsmax : p.roic_tv.clip_max = some shi) (hsle : slo ≤ shi) :
    (∀ x ∈ (simulateTrial p tax d).revenue_growth, glo ≤ x ∧ x ≤ ghi) ∧
    (∀ x ∈ (simulateTrial p tax d).operating_margin, mlo ≤ x ∧ x ≤ mhi) ∧
    (∀ x ∈ (simulateTrial p tax d).wacc, wlo ≤ x ∧ x ≤ whi) ∧
    (∀ x ∈ (simulateTrial p tax d).reinvestment_rate, rlo ≤ x ∧ x ≤ rhi) ∧
    (slo ≤ (simulateTrial p tax d).roic_tv ∧ (simulateTrial p tax d).roic_tv ≤ shi) ∧
    (glo = ghi → (simulateTrial p tax d).revenue_growth = List.replicate 11 glo) := by
  have hg1 := npClip_le_and_ge (x := d.growth_z1) hgle
  have hgT := npClip_le_and_ge (x := d.growth_zT) hgle
  refine ⟨?_, ?_, ?_, ?_, ?_, ?_⟩
  · intro x hx
    simp [simulateTrial, hgs, simulate_structured_growth, linspace6, hgmin, hgmax] at hx
    rcases hx with h | h | h | h | h | h <;> subst h <;>
      constructor <;> linarith [hg1.1, hg1.2, hgT.1, hgT.2]
  · intro x hx
    simp [simulateTrial, sampleTermList, hmmin, hmmax] at hx
    rcases hx with ⟨k, hk, h⟩ | h <;> subst h <;>
      exact npClip_le_and_ge hmle
  · intro x hx
    simp [simulateTrial, sampleTermList, hwmin, hwmax] at hx
    rcases hx with ⟨k, hk, h⟩ | h <;> subst h <;>
      exact npClip_le_and_ge hwle
  · intro x hx
    simp [simulateTrial, sampleReinvestment, hrmin, hrmax] at hx
    obtain ⟨k, hk, h⟩ := hx
    subst h
    exact npClip_le_and_ge hrle
  · simpa [simulateTrial, sampleScalar, hsmin, hsmax] using
      npClip_le_and_ge (x := d.roic_z) hsle
  · intro he
    subst he
    simp [simulateTrial, hgs, simulate_structured_growth, linspace6, hgmin,
      hgmax, npClip_const, List.replicate]

/-- Witness for C8 at the default MC.py sampling configuration: each clip
interval is ordered, so in particular the sampled terminal ROIC stays in
its configured interval `[0.1, 0.3]`. -/
theorem c8_clipping_bounds_witness :
    ((-1 : ℚ) ≤ 1) ∧ ((0 : ℚ) ≤ 3) ∧ ((1/100 : ℚ) ≤ 99/100) ∧ ((1/10 : ℚ) ≤ 3/10) ∧
    ((1/10 : ℚ) ≤ (simulateTrial
      ⟨⟨3/10, 1/50, 43/1000, 1/500, true, some (-1), some 1⟩,
       ⟨2/5, 3/100, 2/5, 3/100, some (-1), some 1⟩,
       ⟨2, 1/5, 10, some 0, some 3⟩,
       ⟨9/100, 1/200, 21/250, 1/500, some (1/100), some (99/100)⟩,
       ⟨1/5, 1/50, some (1/10), some (3/10)⟩⟩
      (91/500) ⟨0, 0, fun _ => 0, 0, fun _ => 0, 0, fun _ => 1, 0⟩).roic_tv ∧
     (simulateTrial
      ⟨⟨3/10, 1/50, 43/1000, 1/500, true, some (-1), some 1⟩,
       ⟨2/5, 3/100, 2/5, 3/100, some (-1), some 1⟩,
       ⟨2, 1/5, 10, some 0, some 3⟩,
       ⟨9/100, 1/200, 21/250, 1/500, some (1/100), some (99/100)⟩,
       ⟨1/5, 1/50, some (1/10), some (3/10)⟩⟩
      (91/500) ⟨0, 0, fun _ => 0, 0, fun _ => 0, 0, fun _ => 1, 0⟩).roic_tv ≤ 3/10) :=
  ⟨by norm_num, by norm_num, by norm_num, by norm_num,
    (c8_clipping_bounds
      ⟨⟨3/10, 1/50, 43/1000, 1/500, true, some (-1), some 1⟩,
       ⟨2/5, 3/100, 2/5, 3/100, some (-1), some 1⟩,
       ⟨2, 1/5, 10, some 0, some 3⟩,
       ⟨9/100, 1/200, 21/250, 1/500, some (1/100), some (99/100)⟩,
       ⟨1/5, 1/50, some (1/10), some (3/10)⟩⟩
      (91/500) ⟨0, 0, fun _ => 0, 0, fun _ => 0, 0, fun _ => 1, 0⟩
      (-1) 1 (-1) 1 (1/100) (99/100) 0 3 (1/10) (3/10)
      rfl rfl rfl (by norm_num) rfl rfl (by norm_num) rfl rfl (by norm_num)
      rfl rfl (by norm_num) rfl rfl (by norm_num)).2.2.2.2.1⟩

/-- C9 as amended: a Monte Carlo run over `n` trials yields exactly `n`
fair-value scalars, and the value of trial `t` is a function of the shared
fact base, the configuration and the draws of trial `t` alone (no state crosses
trials); finiteness of the individual values is NOT guaranteed (see the
counterexample). -/
theorem c9_mc_length_and_stateless (fb : FactBase) (p : Params) (tax : ℚ)
    (n : ℕ) (D : ℕ → TrialDraws) :
    (calculate_mc fb (simulate_all p tax n D)).length = n ∧
    ∀ t, t < n →
      (calculate_mc fb (simulate_all p tax n D)).getD t EF.nan =
        (calculate_valuation fb (simulateTrial p tax (D t))).fair_value_per_share := by
  constructor
  · simp [calculate_mc, simulate_all]
  · intro t ht
    simp [calculate_mc, simulate_all, List.getD_eq_getElem?_getD,
      List.getElem?_map, List.getElem?_range, ht]

/-- Witness for C9 (amended): a one-trial run produces exactly one value,
namely the fair value of the one sampled assumption set. -/
theorem c9_mc_length_and_stateless_witness :
    (calculate_mc ⟨1, 0, 0, 1, 1, 1, 0⟩
      (simulate_all
        ⟨⟨1, 0, 1, 0, true, some 1, some 1⟩,
         ⟨1, 0, 1, 0, some 1, some 1⟩,
         ⟨1, 0, 10, some 1, some 1⟩,
         ⟨1, 0, 1, 0, some 1, some 1⟩,
         ⟨2, 0, some 2, some 2⟩⟩
        0 1 (fun _ => ⟨0, 0, fun _ => 0, 0, fun _ => 0, 0, fun _ => 1, 0⟩))).length = 1 ∧
    ((0 : ℕ) < 1 ∧
      (calculate_mc ⟨1, 0, 0, 1, 1, 1, 0⟩
        (simulate_all
          ⟨⟨1, 0, 1, 0, true, some 1, some 1⟩,
           ⟨1, 0, 1, 0, some 1, some 1⟩,
           ⟨1, 0, 10, some 1, some 1⟩,
           ⟨1, 0, 1, 0, some 1, some 1⟩,
           ⟨2, 0, some 2, some 2⟩⟩
          0 1 (fun _ => ⟨0, 0, fun _ => 0, 0, fun _ => 0, 0, fun _ => 1, 0⟩))).getD 0 EF.nan =
        (calculate_valuation ⟨1, 0, 0, 1, 1, 1, 0⟩
          (simulateTrial
            ⟨⟨1, 0, 1, 0, true, some 1, some 1⟩,
             ⟨1, 0, 1, 0, some 1, some 1⟩,
             ⟨1, 0, 10, some 1, some 1⟩,
             ⟨1, 0, 1, 0, some 1, some 1⟩,
             ⟨2, 0, some 2, some 2⟩⟩
            0 ((fun _ => (⟨0, 0, fun _ => 0, 0, fun _ => 0, 0, fun _ => 1, 0⟩ : TrialDraws)) 0))).fair_value_per_share) :=
  ⟨(c9_mc_length_and_stateless ⟨1, 0, 0, 1, 1, 1, 0⟩
      ⟨⟨1, 0, 1, 0, true, some 1, some 1⟩,
       ⟨1, 0, 1, 0, some 1, some 1⟩,
       ⟨1, 0, 10, some 1, some 1⟩,
       ⟨1, 0, 1, 0, some 1, some 1⟩,
       ⟨2, 0, some 2, some 2⟩⟩
      0 1 (fun _ => ⟨0, 0, fun _ => 0, 0, fun _ => 0, 0, fun _ => 1, 0⟩)).1,
   by decide,
   (c9_mc_length_and_stateless ⟨1, 0, 0, 1, 1, 1, 0⟩
      ⟨⟨1, 0, 1, 0, true, some 1, some 1⟩,
       ⟨1, 0, 1, 0, some 1, some 1⟩,
       ⟨1, 0, 10, some 1, some 1⟩,
       ⟨1, 0, 1, 0, some 1, some 1⟩,
       ⟨2, 0, some 2, some 2⟩⟩
      0 1 (fun _ => ⟨0, 0, fun _ => 0, 0, fun _ => 0, 0, fun _ => 1, 0⟩)).2 0 (by decide)⟩

/-- C9 counterexample: a sampling configuration whose clip bounds all
satisfy `clip_min ≤ clip_max` but which pins the terminal WACC and the
terminal growth to the same value 1; the single produced fair value is the
non-finite `+∞` (Gordon denominator zero), refuting the claim that every
produced fair-value scalar is finite. -/
theorem c9_counterexample_nonfinite_trial :
    (calculate_mc ⟨1, 0, 0, 1, 1, 1, 0⟩
      (simulate_all
        ⟨⟨1, 0, 1, 0, true, some 1, some 1⟩,
         ⟨1, 0, 1, 0, some 1, some 1⟩,
         ⟨1, 0, 10, some 1, some 1⟩,
         ⟨1, 0, 1, 0, some 1, some 1⟩,
         ⟨2, 0, some 2, some 2⟩⟩
        0 1 (fun _ => ⟨0, 0, fun _ => 0, 0, fun _ => 0, 0, fun _ => 1, 0⟩))).length = 1 ∧
    EF.isFin ((calculate_mc ⟨1, 0, 0, 1, 1, 1, 0⟩
      (simulate_all
        ⟨⟨1, 0, 1, 0, true, some 1, some 1⟩,
         ⟨1, 0, 1, 0, some 1, some 1⟩,
         ⟨1, 0, 10, some 1, some 1⟩,
         ⟨1, 0, 1, 0, some 1, some 1⟩,
         ⟨2, 0, some 2, some 2⟩⟩
        0 1 (fun _ => ⟨0, 0, fun _ => 0, 0, fun _ => 0, 0, fun _ => 1, 0⟩))).getD 0 EF.nan) = false := by
  constructor
  · simp [calculate_mc, simulate_all]
  · have h : simulateTrial
        (⟨⟨1, 0, 1, 0, true, some 1, some 1⟩,
          ⟨1, 0, 1, 0, some 1, some 1⟩,
          ⟨1, 0, 10, some 1, some 1⟩,
          ⟨1, 0, 1, 0, some 1, some 1⟩,
          ⟨2, 0, some 2, some 2⟩⟩ : Params) 0
        (⟨0, 0, fun _ => 0, 0, fun _ => 0, 0, fun _ => 1, 0⟩ : TrialDraws) =
        { revenue_growth := [1, 1, 1, 1, 1, 1, 1, 1, 1, 1, 1]
          operating_margin := [1, 1, 1, 1, 1, 1, 1, 1, 1, 1, 1]
          tax_rate := [0, 0, 0, 0, 0, 0, 0, 0, 0, 0, 0]
          wacc := [1, 1, 1, 1, 1, 1, 1, 1, 1, 1, 1]
          reinvestment_rate := [1, 1, 1, 1, 1, 1, 1, 1, 1, 1]
          roic_tv := 2 } := by
      norm_num [simulateTrial, simulate_structured_growth, linspace6,
        sampleTermList, sampleReinvestment, sampleScalar, npClip,
        List.range_succ, List.replicate]
    simp only [calculate_mc, simulate_all, List.range_succ, List.range_zero,
      List.map_cons, List.map_nil, List.nil_append, h, List.getD_cons_zero]
    norm_num [calculate_valuation, discountedFCFF, discountFactor, fcff,
      ebitAfterTax, ebit, revenues, revenueCol, revenueGrowthCol, reinvestment,
      reinvestmentRateCol, waccCol, shiftm1, cumprodSkipNA, cumprodAux, nansum,
      EF.add, EF.sub, EF.neg, EF.mul, EF.div, EF.isFin, List.dropLast,
      List.getLastD, EF.pinf_eq_nan, EF.ninf_eq_nan, EF.fin_eq_nan]

/-- C10: a lognormal reinvestment-rate draw is strictly positive (modelled
by the positive exponential factor), the configured mean is positive, and
clamping with a positive upper bound preserves positivity; hence every
sampled reinvestment rate is strictly positive and the forecast
reinvestment division for years 1..10 is never a division by zero — every
such cell of the Reinvestment column is a finite value. -/
theorem c10_reinvestment_rates_positive (fb : FactBase) (p : Params)
    (tax : ℚ) (d : TrialDraws)
    (hmean : 0 < p.reinvestment_rate.mean)
    (hE : ∀ k, 0 < d.rr_e k)
    (hhi : ∀ h, p.reinvestment_rate.clip_max = some h → 0 < h)
    (hsize : p.reinvestment_rate.size = 10)
    (hgs : p.revenue_growth.structured = true) :
    (∀ r ∈ (simulateTrial p tax d).reinvestment_rate, 0 < r) ∧
    (∀ i, 1 ≤ i → i ≤ 10 →
      EF.isFin ((reinvestment fb (simulateTrial p tax d)).getD i EF.nan) = true) := by
  have hpos : ∀ r ∈ (simulateTrial p tax d).reinvestment_rate, 0 < r := by
    intro r hrm
    simp [simulateTrial, sampleReinvestment] at hrm
    obtain ⟨k, hk, rfl⟩ := hrm
    exact npClip_pos _ _ (mul_pos hmean (hE k)) hhi
  refine ⟨hpos, ?_⟩
  exact reinvestment_isFin_of_rates_nonzero fb _
    (simulateTrial_wellFormed p tax d hgs hsize)
    (fun r hrm => ne_of_gt (hpos r hrm))

/-- Witness for C10 at the default reinvestment configuration (lognormal
mean 2, clip interval `[0, 3]`): every sampled reinvestment rate is
strictly positive. -/
theorem c10_reinvestment_rates_positive_witness :
    ((0 : ℚ) < 2) ∧ (∀ k : ℕ, (0 : ℚ) < (fun _ : ℕ => (1 : ℚ)) k) ∧
    (∀ h : ℚ, (some (3 : ℚ) = some h) → 0 < h) ∧
    (∀ r ∈ (simulateTrial
      ⟨⟨3/10, 1/50, 43/1000, 1/500, true, some (-1), some 1⟩,
       ⟨2/5, 3/100, 2/5, 3/100, some (-1), some 1⟩,
       ⟨2, 1/5, 10, some 0, some 3⟩,
       ⟨9/100, 1/200, 21/250, 1/500, some (1/100), some (99/100)⟩,
       ⟨1/5, 1/50, some (1/10), some (3/10)⟩⟩
      (91/500) ⟨0, 0, fun _ => 0, 0, fun _ => 0, 0, fun _ => 1, 0⟩).reinvestment_rate, 0 < r) :=
  ⟨by norm_num, fun k => by norm_num,
   fun h hh => by injection hh with e; rw [← e]; norm_num,
   (c10_reinvestment_rates_positive ⟨1, 0, 0, 1, 1, 1, 0⟩
      ⟨⟨3/10, 1/50, 43/1000, 1/500, true, some (-1), some 1⟩,
       ⟨2/5, 3/100, 2/5, 3/100, some (-1), some 1⟩,
       ⟨2, 1/5, 10, some 0, some 3⟩,
       ⟨9/100, 1/200, 21/250, 1/500, some (1/100), some (99/100)⟩,
       ⟨1/5, 1/50, some (1/10), some (3/10)⟩⟩
      (91/500) ⟨0, 0, fun _ => 0, 0, fun _ => 0, 0, fun _ => 1, 0⟩
      (by norm_num) (fun k => by norm_num)
      (fun h hh => by injection hh with e; rw [← e]; norm_num)
      rfl rfl).1⟩
